import Mathlib

/-!
Shallow embedding of `src/Models/Model_Validation_and_Interpretation.ipynb`
(fraud-detection model validation script).

Python dictionaries are modelled as insertion-ordered association lists,
scalar values (numbers or category strings) as `Scalar`, pandas single-row
DataFrames as `DataFrame` (column list plus the one row), raised exceptions
as `Except` errors, and printed warnings / output lines / stderr lines as
structured values accumulated alongside results.
-/

deriving instance DecidableEq for Except

/-- Words of a Python scalar value: a number or a category string.
Numbers are modelled as rationals (the script uses ints and floats). -/
inductive Scalar where
  | num (q : Rat)
  | str (s : String)
deriving DecidableEq

/-- Python `str(value)` as used inside the f-string that builds the
one-hot column name. For category strings this is the string itself. -/
def Scalar.pyStr : Scalar → String
  | .num q => toString q
  | .str s => s

/-- Python `k in d` on a dict modelled as an association list. -/
def dictHas {α : Type} (d : List (String × α)) (k : String) : Bool :=
  d.any (fun p => p.1 == k)

/-- Python `d[k]` on a dict of scalars (first binding wins; a real Python
dict has unique keys). Defaults to 0 when absent, which only happens after
a `dictHas` guard in the embedded code. -/
def dictGet (d : List (String × Scalar)) (k : String) : Scalar :=
  (((d.find? (fun p => p.1 == k))).map Prod.snd).getD (.num 0)

/-- A pandas single-row DataFrame: the ordered column names and the row. -/
structure DataFrame where
  cols : List String
  row : List Scalar
deriving DecidableEq

/-- Value of a column in a single-row DataFrame (first column of that name;
0 when the column is absent). -/
def DataFrame.colVal (df : DataFrame) (c : String) : Scalar :=
  (((df.cols.zip df.row).find? (fun p => p.1 == c)).map Prod.snd).getD (.num 0)

/-- The two warnings `prepare_input_data` prints to stdout. -/
inductive PrepWarning where
  | numericalNotUsed (feature : String)
  | categoryNotFound (value : String) (original_feature : String)
deriving DecidableEq

/-- Errors raised by the scikit-learn layer, as observed by `predict_fraud`.
`columnsMissing` is the "columns are missing: {...}" validation error from
the reference run. -/
inductive SkErr where
  | columnsMissing (missing : List String)
  | featureNamesMismatch
  | indexOutOfBounds
  | raised (msg : String)
deriving DecidableEq

/-- Payloads of the `ValueError`s the script itself raises. -/
inductive ErrMsg where
  | noExpectedFeatures
  | errorLoadingModel (cause : String)
  | predictionError (cause : SkErr)
  | couldNotDetermineFeatures
deriving DecidableEq

/-- Python exceptions that can propagate to the top-level handler. -/
inductive PyError where
  | valueError (m : ErrMsg)
  | typeError
  | attributeError
deriving DecidableEq

/-- One step of the numerical-feature loop of `prepare_input_data`: state is
the feature-value dict (as a total function, everything else 0) plus the
warnings printed so far. -/
def numericStep (input_dict : List (String × Scalar)) (expected_features : List String)
    (st : (String → Scalar) × List PrepWarning) (feature : String) :
    (String → Scalar) × List PrepWarning :=
  if feature ∈ expected_features then
    (Function.update st.1 feature (dictGet input_dict feature), st.2)
  else
    (st.1, st.2 ++ [.numericalNotUsed feature])

/-- One step of the categorical loop of `prepare_input_data`: for a mapping
entry `(original_feature, encoded_prefix)` present in the input, set the
derived one-hot column to 1 when it is expected, else warn. -/
def categoricalStep (input_dict : List (String × Scalar)) (expected_features : List String)
    (st : (String → Scalar) × List PrepWarning) (entry : String × String) :
    (String → Scalar) × List PrepWarning :=
  if dictHas input_dict entry.1 then
    let value := dictGet input_dict entry.1
    let encoded_column := entry.2 ++ "_" ++ value.pyStr
    if encoded_column ∈ expected_features then
      (Function.update st.1 encoded_column (.num 1), st.2)
    else
      (st.1, st.2 ++ [.categoryNotFound value.pyStr entry.1])
  else st

/-- `prepare_input_data(input_dict, expected_features, categorical_mapping=None)`.
Raises `ValueError` on an empty expected-feature list; with the default
`None` mapping, the list comprehension `[f for f in input_dict if f not in
categorical_mapping]` raises `TypeError` as soon as `input_dict` has a key;
otherwise every expected feature starts at 0, numerical input features are
copied when expected (warned otherwise), mapped categorical features set
their derived one-hot column to 1 when expected (warned otherwise), and the
result is a single-row DataFrame keyed by `expected_features` in order,
together with the warnings printed. -/
def prepare_input_data (input_dict : List (String × Scalar))
    (expected_features : List String)
    (categorical_mapping : Option (List (String × String))) :
    Except PyError (DataFrame × List PrepWarning) :=
  if expected_features = [] then
    .error (.valueError .noExpectedFeatures)
  else
    match categorical_mapping with
    | none =>
      if input_dict = [] then
        .ok (⟨expected_features, expected_features.map (fun _ => Scalar.num 0)⟩, [])
      else
        .error .typeError
    | some cm =>
      let numerical_features := (input_dict.map Prod.fst).filter (fun f => ¬ dictHas cm f)
      let st1 := numerical_features.foldl (numericStep input_dict expected_features)
        ((fun _ => Scalar.num 0), [])
      let st2 := cm.foldl (categoricalStep input_dict expected_features) st1
      .ok (⟨expected_features, expected_features.map st2.1⟩, st2.2)

/-- The hand-authored `CATEGORICAL_MAPPING` constant of the script. -/
def CATEGORICAL_MAPPING : List (String × String) :=
  [("Transaction_Type", "Transaction_Type"),
   ("Device_Type", "Device_Type"),
   ("Location", "Location"),
   ("Merchant_Category", "Merchant_Category"),
   ("Authentication_Method", "Authentication_Method")]

/-- The hardcoded example transaction record of `main`. -/
def transaction_data : List (String × Scalar) :=
  [("Transaction_Amount", .num 1500),
   ("Transaction_Type", .str "Online"),
   ("Account_Balance", .num 5000),
   ("Device_Type", .str "Mobile"),
   ("Location", .str "New York"),
   ("Merchant_Category", .str "Electronics"),
   ("IP_Address_Flag", .num 1),
   ("Daily_Transaction_Count", .num 10),
   ("Avg_Transaction_Amount_7d", .num 200),
   ("Failed_Transaction_Count_7d", .num 3),
   ("Transaction_Distance", .num 1500),
   ("Authentication_Method", .str "Password"),
   ("Risk_Score", .num (9/10)),
   ("Is_Weekend", .num 0),
   ("Hour", .num 3),
   ("DayOfWeek", .num 4),
   ("Is_Night", .num 1),
   ("Amount_to_Balance_Ratio", .num (1500/5000)),
   ("Amount_Deviation", .num (1500-200)),
   ("High_Risk_Category", .num 1),
   ("Previous_Fraudulent_Activity", .num 0)]

/-- An underlying scikit-learn estimator as the script observes it:
its recorded training-time feature names (`feature_names_in_`, absent for
estimators fitted without names), whether it is a `Pipeline`, and its
abstract `predict` / `predict_proba` computations on a row, which may fail. -/
structure SkModel where
  feature_names_in : Option (List String)
  is_pipeline : Bool
  predictFn : List Scalar → Except SkErr (List Int)
  probaFn : List Scalar → Except SkErr (List (List Rat))

/-- A deserialized Python artifact value as the script can observe it:
a raw model object, a list of feature-name strings, a dict, or `None`. -/
inductive PyObject where
  | model (m : SkModel)
  | strlist (xs : List String)
  | dict (entries : List (String × PyObject))
  | noneV

/-- Python truthiness for the artifact values above (lists and dicts are
falsy when empty; objects are truthy; `None` is falsy). -/
def PyObject.truthy : PyObject → Bool
  | .strlist xs => !xs.isEmpty
  | .dict es => !es.isEmpty
  | .model _ => true
  | .noneV => false

/-- Lookup in a dict-valued artifact, Python `d[k]` / `d.get(k)`. -/
def pyFind (entries : List (String × PyObject)) (k : String) : Option PyObject :=
  ((entries.find? (fun p => p.1 == k))).map Prod.snd

/-- Python `d.get(k, default)`. -/
def pyGetD (entries : List (String × PyObject)) (k : String) (dflt : PyObject) : PyObject :=
  (pyFind entries k).getD dflt

/-- `load_model_with_metadata(model_path)`, with the outcome of
`joblib.load` made explicit as the argument: a dict with a `'model'` key
yields the model plus the three metadata lists (each defaulting to the
empty list); any other value is returned as the raw model with empty
metadata; a deserialization failure is re-raised as
`ValueError("Error loading model: ...")`. -/
def load_model_with_metadata (loaded : Except String PyObject) :
    Except PyError (PyObject × PyObject × PyObject × PyObject) :=
  match loaded with
  | .error e => .error (.valueError (.errorLoadingModel e))
  | .ok model_data =>
    match model_data with
    | .dict entries =>
      if dictHas entries "model" then
        .ok (pyGetD entries "model" .noneV,
             pyGetD entries "feature_names" (.strlist []),
             pyGetD entries "categorical_features" (.strlist []),
             pyGetD entries "training_columns" (.strlist []))
      else
        .ok (model_data, .strlist [], .strlist [], .strlist [])
    | _ => .ok (model_data, .strlist [], .strlist [], .strlist [])

/-- Modelled from the spec: scikit-learn's feature-name validation, run by
`predict` / `predict_proba` of a model fitted on named columns. The
estimator and its training-time column set live in the `.pkl` artifact,
which is not part of the repository source; the spec records that the call
"fails ... when the vector's columns do not match the model's training-time
columns (e.g., missing or renamed columns)" and that the observed message is
"columns are missing" naming the missing columns. -/
def sklearn_check_columns (m : SkModel) (df : DataFrame) : Except SkErr Unit :=
  match m.feature_names_in with
  | none => .ok ()
  | some tc =>
    let missing := tc.filter (fun c => !(df.cols.contains c))
    if missing.isEmpty then
      if df.cols == tc then .ok () else .error .featureNamesMismatch
    else
      .error (.columnsMissing missing)

/-- `model.predict(input_data)`: column validation then the estimator's own
computation on the row. -/
def sklearn_predict (m : SkModel) (df : DataFrame) : Except SkErr (List Int) :=
  match sklearn_check_columns m df with
  | .error e => .error e
  | .ok _ => m.predictFn df.row

/-- `model.predict_proba(input_data)`: column validation then the
estimator's own computation, one probability row per input row. -/
def sklearn_predict_proba (m : SkModel) (df : DataFrame) : Except SkErr (List (List Rat)) :=
  match sklearn_check_columns m df with
  | .error e => .error e
  | .ok _ => m.probaFn df.row

/-- Numpy `proba[:, 1]`: the second entry of each probability row;
an `IndexError` if some row is too short. -/
def column1 : List (List Rat) → Except SkErr (List Rat)
  | [] => .ok []
  | r :: rs =>
    match r[1]? with
    | some x => (column1 rs).map (fun t => x :: t)
    | none => .error .indexOutOfBounds

/-- `predict_fraud(model, input_data)`: calls `model.predict` and
`model.predict_proba(...)[:, 1]`, returns `(prediction[0], probability[0])`,
and re-raises any failure as `ValueError("Prediction error: ...")`
wrapping the cause. -/
def predict_fraud (model : SkModel) (input_data : DataFrame) :
    Except PyError (Int × Rat) :=
  match sklearn_predict model input_data with
  | .error e => .error (.valueError (.predictionError e))
  | .ok prediction =>
    match sklearn_predict_proba model input_data with
    | .error e => .error (.valueError (.predictionError e))
    | .ok proba =>
      match column1 proba with
      | .error e => .error (.valueError (.predictionError e))
      | .ok probability =>
        match prediction.head?, probability.head? with
        | some p, some q => .ok (p, q)
        | _, _ => .error (.valueError (.predictionError .indexOutOfBounds))

/-- The expected-feature list of the reference run (metadata of the
artifact, printed by the script as "Expected features: ..."). -/
def referenceExpectedFeatures : List String :=
  ["Transaction_Amount", "Account_Balance", "IP_Address_Flag",
   "Previous_Fraudulent_Activity", "Daily_Transaction_Count",
   "Avg_Transaction_Amount_7d", "Failed_Transaction_Count_7d",
   "Transaction_Distance", "Risk_Score", "Is_Weekend", "Hour", "DayOfWeek",
   "Is_Night", "Amount_to_Balance_Ratio", "Amount_Deviation",
   "High_Risk_Category", "Transaction_Type_ATM Withdrawal",
   "Transaction_Type_Bank Transfer", "Transaction_Type_Online",
   "Transaction_Type_POS", "Device_Type_Laptop", "Device_Type_Mobile",
   "Device_Type_Tablet", "Location_London", "Location_Mumbai",
   "Location_New York", "Location_Sydney", "Location_Tokyo",
   "Merchant_Category_Clothing", "Merchant_Category_Electronics",
   "Merchant_Category_Groceries", "Merchant_Category_Restaurants",
   "Merchant_Category_Travel", "Authentication_Method_Biometric",
   "Authentication_Method_OTP", "Authentication_Method_PIN",
   "Authentication_Method_Password"]

/-- Modelled from the spec: the training-time column set recorded inside the
pickled estimator of the reference run, which is not part of the repository
source. The reference run shows the model expecting the raw (pre-encoding)
columns: prediction fails with "columns are missing" naming exactly the five
raw categorical keys, so the estimator's columns are the sixteen numeric
features together with the five raw categorical names. -/
def referenceTrainingColumns : List String :=
  ["Transaction_Amount", "Account_Balance", "IP_Address_Flag",
   "Previous_Fraudulent_Activity", "Daily_Transaction_Count",
   "Avg_Transaction_Amount_7d", "Failed_Transaction_Count_7d",
   "Transaction_Distance", "Risk_Score", "Is_Weekend", "Hour", "DayOfWeek",
   "Is_Night", "Amount_to_Balance_Ratio", "Amount_Deviation",
   "High_Risk_Category", "Transaction_Type", "Device_Type", "Location",
   "Merchant_Category", "Authentication_Method"]

/-- Lines `main` prints to stdout, as structured values. -/
inductive OutLine where
  | modelLoaded
  | warnNoFeatureNames
  | pipelineNote
  | expectedFeatures (rendered : String)
  | prepWarning (w : PrepWarning)
  | predictionResultsHeader
  | predictionLine (label : Int)
  | probabilityLine (probability : Rat)
  | alertFraud
  | legitimate
deriving DecidableEq

/-- How `print("Expected features:", feature_names)` renders the value. -/
def PyObject.render : PyObject → String
  | .strlist xs => String.intercalate ", " xs
  | .dict _ => "dict"
  | .model _ => "model"
  | .noneV => "None"

/-- Outcome of one process run: exit code, stdout lines, stderr lines. -/
structure RunResult where
  exitCode : Nat
  stdout : List OutLine
  stderr : List PyError
deriving DecidableEq

/-- The feature-name fallback block of `main`: when the metadata feature
list is falsy, warn, then try the model's `feature_names_in_` attribute,
else note when the model is a `Pipeline`. Returns the extra stdout lines and
the (possibly replaced) feature-name value. -/
def resolveFeatureNames (model_o feature_names : PyObject) :
    List OutLine × PyObject :=
  if feature_names.truthy then ([], feature_names)
  else
    match model_o with
    | .model m =>
      match m.feature_names_in with
      | some xs => ([.warnNoFeatureNames], .strlist xs)
      | none =>
        if m.is_pipeline then ([.warnNoFeatureNames, .pipelineNote], feature_names)
        else ([.warnNoFeatureNames], feature_names)
    | _ => ([.warnNoFeatureNames], feature_names)

/-- Iterating the feature-name value inside `prepare_input_data`
(`{feature: 0 for feature in expected_features}` and
`pd.DataFrame(..., columns=expected_features)`): a list iterates its
elements, a dict its keys, anything else raises `TypeError`. -/
def asFeatureList : PyObject → Except PyError (List String)
  | .strlist xs => .ok xs
  | .dict es => .ok (es.map Prod.fst)
  | _ => .error .typeError

/-- `predict_fraud(model, input_df)` as `main` calls it on the loaded model
slot: a non-model object has no `predict` attribute. -/
def model_predict_obj (model_o : PyObject) (df : DataFrame) :
    Except PyError (Int × Rat) :=
  match model_o with
  | .model m => predict_fraud m df
  | _ => .error .attributeError

/-- The adjustable alert threshold of `main` (`threshold = 0.5`), written
as the reduced rational 1/2 directly (numerator 1, denominator 2) so that
comparisons against it evaluate. -/
def threshold : Rat := ⟨1, 2, by decide, Nat.coprime_one_left 2⟩

/-- The interpretation block of `main`: strictly above the threshold prints
the fraud alert, otherwise the legitimate message. -/
def classifyTransaction (probability : Rat) : OutLine :=
  if probability > threshold then .alertFraud else .legitimate

namespace Script

/-- `main()`, with the outcome of deserializing the artifact file as the
argument. Any exception raised inside the `try` block is printed to stderr
and the process exits with code 1; otherwise the run prints the prediction
results and exits 0. (The name lives in a namespace because Lean reserves
the bare name `main` for executables.) -/
def main (loaded : Except String PyObject) : RunResult :=
  match load_model_with_metadata loaded with
  | .error e => ⟨1, [], [e]⟩
  | .ok (model_o, fn0, _cats, _cols) =>
    if (resolveFeatureNames model_o fn0).2.truthy then
      match asFeatureList (resolveFeatureNames model_o fn0).2 with
      | .error e =>
        ⟨1, OutLine.modelLoaded :: (resolveFeatureNames model_o fn0).1 ++
            [.expectedFeatures (resolveFeatureNames model_o fn0).2.render], [e]⟩
      | .ok feats =>
        match prepare_input_data transaction_data feats (some CATEGORICAL_MAPPING) with
        | .error e =>
          ⟨1, OutLine.modelLoaded :: (resolveFeatureNames model_o fn0).1 ++
              [.expectedFeatures (resolveFeatureNames model_o fn0).2.render], [e]⟩
        | .ok (df, ws) =>
          match model_predict_obj model_o df with
          | .error e =>
            ⟨1, OutLine.modelLoaded :: (resolveFeatureNames model_o fn0).1 ++
                [.expectedFeatures (resolveFeatureNames model_o fn0).2.render] ++
                ws.map OutLine.prepWarning, [e]⟩
          | .ok (p, pr) =>
            ⟨0, OutLine.modelLoaded :: (resolveFeatureNames model_o fn0).1 ++
                [.expectedFeatures (resolveFeatureNames model_o fn0).2.render] ++
                ws.map OutLine.prepWarning ++
                [.predictionResultsHeader, .predictionLine p,
                 .probabilityLine pr, classifyTransaction pr], []⟩
    else
      ⟨1, OutLine.modelLoaded :: (resolveFeatureNames model_o fn0).1,
        [.valueError .couldNotDetermineFeatures]⟩

end Script

/-- A feature name is a one-hot column driven to 1 by the categorical loop:
some mapping entry is present in the input, derives exactly this column
name, and the column is expected. -/
def catHit (input : List (String × Scalar)) (exp : List String)
    (cm : List (String × String)) (f : String) : Prop :=
  (∃ e ∈ cm, dictHas input e.1 = true ∧
      e.2 ++ "_" ++ (dictGet input e.1).pyStr = f) ∧ f ∈ exp

instance catHit.decidable (input : List (String × Scalar)) (exp : List String)
    (cm : List (String × String)) (f : String) : Decidable (catHit input exp cm f) := by
  unfold catHit
  infer_instance

lemma numericFold_val (input : List (String × Scalar)) (exp : List String)
    (ns : List String) :
    ∀ (st : (String → Scalar) × List PrepWarning) (f : String),
      ((ns.foldl (numericStep input exp) st).1) f =
        if f ∈ ns ∧ f ∈ exp then dictGet input f else st.1 f := by
  induction ns with
  | nil => intro st f; simp
  | cons n tl ih =>
    intro st f
    simp only [List.foldl_cons, ih, numericStep]
    by_cases hn : n ∈ exp <;> by_cases hf : f = n <;>
      by_cases htl : f ∈ tl <;> by_cases he : f ∈ exp <;>
        simp_all [Function.update_apply]

lemma numericFold_warn (input : List (String × Scalar)) (exp : List String)
    (ns : List String) :
    ∀ (st : (String → Scalar) × List PrepWarning),
      ((ns.foldl (numericStep input exp) st).2) =
        st.2 ++ (ns.filter (fun f => decide (f ∉ exp))).map
          PrepWarning.numericalNotUsed := by
  induction ns with
  | nil => intro st; simp
  | cons n tl ih =>
    intro st
    simp only [List.foldl_cons, ih, numericStep]
    by_cases hn : n ∈ exp <;> simp [hn]

lemma catHit_nil (input : List (String × Scalar)) (exp : List String)
    (f : String) : ¬ catHit input exp [] f := by
  rintro ⟨⟨x, hx, -⟩, -⟩
  exact (List.not_mem_nil x) hx

lemma catHit_cons (input : List (String × Scalar)) (exp : List String)
    (e : String × String) (tl : List (String × String)) (f : String) :
    catHit input exp (e :: tl) f ↔
      (dictHas input e.1 = true ∧ e.2 ++ "_" ++ (dictGet input e.1).pyStr = f ∧
        f ∈ exp) ∨ catHit input exp tl f := by
  unfold catHit
  simp only [List.mem_cons]
  constructor
  · rintro ⟨⟨x, hx | hx, hhas, heq⟩, hexp⟩
    · subst hx; exact Or.inl ⟨hhas, heq, hexp⟩
    · exact Or.inr ⟨⟨x, hx, hhas, heq⟩, hexp⟩
  · rintro (⟨hhas, heq, hexp⟩ | ⟨⟨x, hx, hhas, heq⟩, hexp⟩)
    · exact ⟨⟨e, Or.inl rfl, hhas, heq⟩, hexp⟩
    · exact ⟨⟨x, Or.inr hx, hhas, heq⟩, hexp⟩

lemma catFold_val (input : List (String × Scalar)) (exp : List String)
    (cmL : List (String × String)) :
    ∀ (st : (String → Scalar) × List PrepWarning) (f : String),
      ((cmL.foldl (categoricalStep input exp) st).1) f =
        if catHit input exp cmL f then Scalar.num 1 else st.1 f := by
  induction cmL with
  | nil => intro st f; simp [catHit_nil]
  | cons e tl ih =>
    intro st f
    rw [List.foldl_cons, ih]
    rw [categoricalStep]
    by_cases hin : dictHas input e.1
    · rw [if_pos hin]
      dsimp only
      by_cases henc : (e.2 ++ "_" ++ (dictGet input e.1).pyStr) ∈ exp
      · rw [if_pos henc]
        dsimp only
        rw [Function.update_apply]
        by_cases h1 : catHit input exp tl f
        · have h : catHit input exp (e :: tl) f :=
            (catHit_cons input exp e tl f).mpr (Or.inr h1)
          rw [if_pos h1, if_pos h]
        · by_cases h2 : f = e.2 ++ "_" ++ (dictGet input e.1).pyStr
          · have h : catHit input exp (e :: tl) f :=
              (catHit_cons input exp e tl f).mpr
                (Or.inl ⟨hin, h2.symm, by rw [h2]; exact henc⟩)
            rw [if_neg h1, if_pos h2, if_pos h]
          · have h : ¬ catHit input exp (e :: tl) f := by
              intro hc
              rcases (catHit_cons input exp e tl f).mp hc with ⟨-, heq, -⟩ | hc2
              · exact h2 heq.symm
              · exact h1 hc2
            rw [if_neg h1, if_neg h2, if_neg h]
      · rw [if_neg henc]
        dsimp only
        have hiff : catHit input exp (e :: tl) f ↔ catHit input exp tl f := by
          rw [catHit_cons]
          constructor
          · rintro (⟨-, heq, hfe⟩ | h)
            · exact absurd (heq ▸ hfe) henc
            · exact h
          · exact Or.inr
        by_cases h1 : catHit input exp tl f
        · rw [if_pos h1, if_pos (hiff.mpr h1)]
        · rw [if_neg h1, if_neg (fun hc => h1 (hiff.mp hc))]
    · rw [if_neg hin]
      have hiff : catHit input exp (e :: tl) f ↔ catHit input exp tl f := by
        rw [catHit_cons]
        constructor
        · rintro (⟨h, -⟩ | h)
          · exact absurd h hin
          · exact h
        · exact Or.inr
      by_cases h1 : catHit input exp tl f
      · rw [if_pos h1, if_pos (hiff.mpr h1)]
      · rw [if_neg h1, if_neg (fun hc => h1 (hiff.mp hc))]

lemma catFold_warn (input : List (String × Scalar)) (exp : List String)
    (cmL : List (String × String)) :
    ∀ (st : (String → Scalar) × List PrepWarning),
      ((cmL.foldl (categoricalStep input exp) st).2) =
        st.2 ++ cmL.filterMap (fun e =>
          if dictHas input e.1 ∧ (e.2 ++ "_" ++ (dictGet input e.1).pyStr) ∉ exp then
            some (.categoryNotFound (dictGet input e.1).pyStr e.1)
          else none) := by
  induction cmL with
  | nil => intro st; simp
  | cons e tl ih =>
    intro st
    simp only [List.foldl_cons, ih, categoricalStep]
    by_cases hin : dictHas input e.1 <;>
      by_cases henc : (e.2 ++ "_" ++ (dictGet input e.1).pyStr) ∈ exp <;>
        simp [hin, henc]

/-- Closed form of the value the builder gives each expected feature: 1 for
a categorically hit one-hot column, else the raw input value for an expected
numerical input attribute, else the initial 0. -/
def prepVal (input : List (String × Scalar)) (exp : List String)
    (cm : List (String × String)) (f : String) : Scalar :=
  if catHit input exp cm f then .num 1
  else if f ∈ (input.map Prod.fst).filter (fun g => ¬ dictHas cm g) ∧ f ∈ exp then
    dictGet input f
  else .num 0

/-- Closed form of the warnings the builder prints, in print order. -/
def prepWarnings (input : List (String × Scalar)) (exp : List String)
    (cm : List (String × String)) : List PrepWarning :=
  (((input.map Prod.fst).filter (fun g => ¬ dictHas cm g)).filter
      (fun f => decide (f ∉ exp))).map PrepWarning.numericalNotUsed ++
    cm.filterMap (fun e =>
      if dictHas input e.1 ∧ (e.2 ++ "_" ++ (dictGet input e.1).pyStr) ∉ exp then
        some (.categoryNotFound (dictGet input e.1).pyStr e.1)
      else none)

/-- With a non-empty expected-feature list and an actual (non-`None`)
categorical mapping, `prepare_input_data` succeeds and returns the
single-row table keyed by the expected features in order, with the values
and warnings given by the closed forms above. -/
theorem prepare_input_data_eq (input : List (String × Scalar))
    (exp : List String) (cm : List (String × String)) (h : exp ≠ []) :
    prepare_input_data input exp (some cm) =
      .ok (⟨exp, exp.map (prepVal input exp cm)⟩, prepWarnings input exp cm) := by
  unfold prepare_input_data
  rw [if_neg h]
  have hval : ∀ f ∈ exp,
      ((cm.foldl (categoricalStep input exp)
        (((input.map Prod.fst).filter (fun f => ¬ dictHas cm f)).foldl
          (numericStep input exp) ((fun _ => Scalar.num 0), []))).1) f =
      prepVal input exp cm f := by
    intro f _
    rw [catFold_val, numericFold_val, prepVal]
  have hwarn :
      ((cm.foldl (categoricalStep input exp)
        (((input.map Prod.fst).filter (fun f => ¬ dictHas cm f)).foldl
          (numericStep input exp) ((fun _ => Scalar.num 0), []))).2) =
      prepWarnings input exp cm := by
    rw [catFold_warn, numericFold_warn, prepWarnings]
    simp
  simp only [List.map_congr_left hval, hwarn]

lemma dictHas_iff {α : Type} (d : List (String × α)) (k : String) :
    dictHas d k = true ↔ k ∈ d.map Prod.fst := by
  simp [dictHas, List.any_eq_true, List.mem_map, beq_iff_eq]

lemma colVal_map (v : String → Scalar) (c : String) :
    ∀ (exp : List String), c ∈ exp →
      (DataFrame.mk exp (exp.map v)).colVal c = v c := by
  intro exp
  induction exp with
  | nil => intro h; exact absurd h (List.not_mem_nil c)
  | cons a tl ih =>
    intro hc
    by_cases hac : a = c
    · subst hac
      simp [DataFrame.colVal]
    · have hct : c ∈ tl := by
        rcases List.mem_cons.mp hc with h | h
        · exact absurd h.symm hac
        · exact h
      have htl := ih hct
      simp only [DataFrame.colVal, List.map_cons, List.zip_cons_cons,
        List.find?] at htl ⊢
      have hbeq : (a == c) = false := by
        simp [beq_eq_false_iff_ne, hac]
      rw [hbeq]
      exact htl

lemma colVal_not_mem (df : DataFrame) (c : String) (hc : c ∉ df.cols) :
    df.colVal c = .num 0 := by
  have h : (df.cols.zip df.row).find? (fun p => p.1 == c) = none := by
    apply List.find?_eq_none.mpr
    rintro ⟨x, y⟩ hp
    have hx : x ∈ df.cols := (List.of_mem_zip hp).1
    simp only [beq_iff_eq]
    intro he
    exact hc (he ▸ hx)
  simp [DataFrame.colVal, h]

/-- Claim C1: for every non-empty expected feature list, every input record
and every categorical mapping, `prepare_input_data` succeeds and returns a
single-row table whose columns are exactly the expected feature list, in
that exact order, regardless of the input record content. -/
theorem claim_C1_columns_exact (input : List (String × Scalar))
    (exp : List String) (cm : List (String × String)) (h : exp ≠ []) :
    ∃ df w, prepare_input_data input exp (some cm) = .ok (df, w) ∧
      df.cols = exp :=
  ⟨_, _, prepare_input_data_eq input exp cm h, rfl⟩

/-- Witness for C1 at a concrete input whose record mentions none of the
expected features. -/
theorem claim_C1_witness :
    (["Transaction_Type_Online", "Risk_Score"] : List String) ≠ [] ∧
      ∃ df w, prepare_input_data [("junk", .num 7)]
          ["Transaction_Type_Online", "Risk_Score"] (some CATEGORICAL_MAPPING) =
        .ok (df, w) ∧ df.cols = ["Transaction_Type_Online", "Risk_Score"] :=
  ⟨by decide, claim_C1_columns_exact [("junk", .num 7)]
    ["Transaction_Type_Online", "Risk_Score"] CATEGORICAL_MAPPING (by decide)⟩

/-- Claim C5: the builder raises `ValueError` on an empty expected feature
list, for every input record and categorical mapping (including the `None`
default). -/
theorem claim_C5_empty_features_error (input : List (String × Scalar))
    (cmo : Option (List (String × String))) :
    prepare_input_data input [] cmo = .error (.valueError .noExpectedFeatures) := by
  unfold prepare_input_data
  simp

/-- Claim C9: with the categorical mapping left at its default `None`, a
non-empty input record and non-empty expected feature list make
`prepare_input_data` raise `TypeError` (membership test on `None`). -/
theorem claim_C9_none_mapping_type_error (input : List (String × Scalar))
    (exp : List String) (h1 : input ≠ []) (h2 : exp ≠ []) :
    prepare_input_data input exp none = .error .typeError := by
  unfold prepare_input_data
  rw [if_neg h2]
  simp [h1]

/-- Witness for C9 at a one-key record and one expected feature. -/
theorem claim_C9_witness :
    ([("Transaction_Amount", Scalar.num 1500)] : List (String × Scalar)) ≠ [] ∧
      (["Transaction_Amount"] : List String) ≠ [] ∧
      prepare_input_data [("Transaction_Amount", .num 1500)]
        ["Transaction_Amount"] none = .error .typeError :=
  ⟨by decide, by decide,
    claim_C9_none_mapping_type_error [("Transaction_Amount", .num 1500)]
      ["Transaction_Amount"] (by decide) (by decide)⟩

/-- Claim C6: an input attribute absent from both the categorical mapping
and the expected features is ignored with a warning; the builder still
succeeds (it never raises because of such an attribute). -/
theorem claim_C6_unknown_attribute_warn (input : List (String × Scalar))
    (exp : List String) (cm : List (String × String)) (a : String)
    (hin : dictHas input a = true) (hcm : dictHas cm a = false)
    (hexp : a ∉ exp) (hne : exp ≠ []) :
    ∃ df w, prepare_input_data input exp (some cm) = .ok (df, w) ∧
      PrepWarning.numericalNotUsed a ∈ w := by
  refine ⟨_, _, prepare_input_data_eq input exp cm hne, ?_⟩
  unfold prepWarnings
  apply List.mem_append_left
  apply List.mem_map_of_mem
  rw [List.mem_filter]
  refine ⟨?_, by simp [hexp]⟩
  rw [List.mem_filter]
  exact ⟨(dictHas_iff input a).mp hin, by simp [hcm]⟩

/-- Witness for C6: the junk attribute of the C1 witness is warned about. -/
theorem claim_C6_witness :
    dictHas [("junk", Scalar.num 7)] "junk" = true ∧
      dictHas CATEGORICAL_MAPPING "junk" = false ∧
      "junk" ∉ (["Risk_Score"] : List String) ∧
      (["Risk_Score"] : List String) ≠ [] ∧
      ∃ df w, prepare_input_data [("junk", .num 7)] ["Risk_Score"]
          (some CATEGORICAL_MAPPING) = .ok (df, w) ∧
        PrepWarning.numericalNotUsed "junk" ∈ w :=
  ⟨by decide, by decide, by decide, by decide,
    claim_C6_unknown_attribute_warn [("junk", .num 7)] ["Risk_Score"]
      CATEGORICAL_MAPPING "junk" (by decide) (by decide) (by decide) (by decide)⟩

/-- Claim C4: a mapped categorical attribute whose derived one-hot column is
not expected is dropped with a warning; the derived column is not a column
of the output (so it is never set) and reading it yields 0. -/
theorem claim_C4_unrecognized_category (input : List (String × Scalar))
    (exp : List String) (cm : List (String × String)) (raw pfx : String)
    (hmem : (raw, pfx) ∈ cm) (hin : dictHas input raw = true)
    (henc : (pfx ++ "_" ++ (dictGet input raw).pyStr) ∉ exp) (hne : exp ≠ []) :
    ∃ df w, prepare_input_data input exp (some cm) = .ok (df, w) ∧
      PrepWarning.categoryNotFound (dictGet input raw).pyStr raw ∈ w ∧
      (pfx ++ "_" ++ (dictGet input raw).pyStr) ∉ df.cols ∧
      df.colVal (pfx ++ "_" ++ (dictGet input raw).pyStr) = .num 0 := by
  refine ⟨_, _, prepare_input_data_eq input exp cm hne, ?_, ?_, ?_⟩
  · unfold prepWarnings
    apply List.mem_append_right
    apply List.mem_filterMap.mpr
    exact ⟨(raw, pfx), hmem, by simp [hin, henc]⟩
  · exact henc
  · exact colVal_not_mem _ _ henc

/-- Witness for C4: category value `Online` has no expected one-hot column. -/
theorem claim_C4_witness :
    ("Transaction_Type", "Transaction_Type") ∈ CATEGORICAL_MAPPING ∧
      dictHas [("Transaction_Type", Scalar.str "Online")] "Transaction_Type" = true ∧
      ("Transaction_Type" ++ "_" ++
        (dictGet [("Transaction_Type", Scalar.str "Online")] "Transaction_Type").pyStr)
        ∉ (["Risk_Score"] : List String) ∧
      (["Risk_Score"] : List String) ≠ [] ∧
      ∃ df w, prepare_input_data [("Transaction_Type", .str "Online")]
          ["Risk_Score"] (some CATEGORICAL_MAPPING) = .ok (df, w) ∧
        PrepWarning.categoryNotFound "Online" "Transaction_Type" ∈ w ∧
        ("Transaction_Type" ++ "_" ++
          (dictGet [("Transaction_Type", Scalar.str "Online")] "Transaction_Type").pyStr)
          ∉ df.cols ∧
        df.colVal ("Transaction_Type" ++ "_" ++
          (dictGet [("Transaction_Type", Scalar.str "Online")] "Transaction_Type").pyStr)
          = .num 0 :=
  ⟨by decide, by decide, by decide, by decide,
    claim_C4_unrecognized_category [("Transaction_Type", .str "Online")]
      ["Risk_Score"] CATEGORICAL_MAPPING "Transaction_Type" "Transaction_Type"
      (by decide) (by decide) (by decide) (by decide)⟩

/-- Claim C3 (counterexample to the universal form): in the claim's own
scenario — input containing `Transaction_Type = Online`, mapping
`{Transaction_Type: Transaction_Type}`, expected features containing
`Transaction_Type_Online` — another input attribute literally named
`Transaction_Type_POS` (same `Transaction_Type_` prefix) is treated as
numerical and set to its raw value 5, so not every other column with that
prefix remains 0. -/
theorem claim_C3_counterexample :
    prepare_input_data
        [("Transaction_Type", .str "Online"), ("Transaction_Type_POS", .num 5)]
        ["Transaction_Type_Online", "Transaction_Type_POS"]
        (some [("Transaction_Type", "Transaction_Type")]) =
      .ok (⟨["Transaction_Type_Online", "Transaction_Type_POS"],
            [.num 1, .num 5]⟩, []) ∧
      "Transaction_Type_POS" = "Transaction_Type_" ++ "POS" ∧
      "Transaction_Type_POS" ≠ "Transaction_Type_Online" ∧
      (Scalar.num 5 : Scalar) ≠ .num 0 := by decide

/-- Claim C3 (amended): the derived one-hot column, when expected, is set
to 1; and every other expected column with the same prefix is 0 unless some
other source sets it — another mapping entry deriving that exact column, or
an unmapped input attribute of that exact name. -/
theorem claim_C3_amended (input : List (String × Scalar)) (exp : List String)
    (cm : List (String × String)) (raw pfx : String)
    (hmem : (raw, pfx) ∈ cm) (hin : dictHas input raw = true)
    (henc : (pfx ++ "_" ++ (dictGet input raw).pyStr) ∈ exp) :
    ∃ df w, prepare_input_data input exp (some cm) = .ok (df, w) ∧
      df.colVal (pfx ++ "_" ++ (dictGet input raw).pyStr) = .num 1 ∧
      ∀ c ∈ exp, (∃ tail, c = pfx ++ "_" ++ tail) →
        ¬ catHit input exp cm c →
        (dictHas input c = true → dictHas cm c = true) →
        df.colVal c = .num 0 := by
  have hne : exp ≠ [] := List.ne_nil_of_mem henc
  refine ⟨_, _, prepare_input_data_eq input exp cm hne, ?_, ?_⟩
  · rw [colVal_map _ _ exp henc]
    unfold prepVal
    rw [if_pos ⟨⟨(raw, pfx), hmem, hin, rfl⟩, henc⟩]
  · intro c hc hpre hnohit hnum
    rw [colVal_map _ _ exp hc]
    unfold prepVal
    rw [if_neg hnohit]
    have hno2 : ¬ (c ∈ (input.map Prod.fst).filter (fun g => ¬ dictHas cm g) ∧
        c ∈ exp) := by
      rintro ⟨hcf, -⟩
      rw [List.mem_filter] at hcf
      have h1 : dictHas input c = true := (dictHas_iff input c).mpr hcf.1
      have h2 := hnum h1
      simp [h2] at hcf
    rw [if_neg hno2]

/-- Witness for the amended C3: the claim's literal scenario, with
`Transaction_Type_POS` also expected but fed by nothing. -/
theorem claim_C3_amended_witness :
    ("Transaction_Type", "Transaction_Type") ∈
        ([("Transaction_Type", "Transaction_Type")] : List (String × String)) ∧
      dictHas [("Transaction_Type", Scalar.str "Online")] "Transaction_Type" = true ∧
      ("Transaction_Type" ++ "_" ++
          (dictGet [("Transaction_Type", Scalar.str "Online")] "Transaction_Type").pyStr)
        ∈ (["Transaction_Type_Online", "Transaction_Type_POS"] : List String) ∧
      ∃ df w, prepare_input_data [("Transaction_Type", .str "Online")]
          ["Transaction_Type_Online", "Transaction_Type_POS"]
          (some [("Transaction_Type", "Transaction_Type")]) = .ok (df, w) ∧
        df.colVal ("Transaction_Type" ++ "_" ++
          (dictGet [("Transaction_Type", Scalar.str "Online")] "Transaction_Type").pyStr)
          = .num 1 ∧
        ∀ c ∈ (["Transaction_Type_Online", "Transaction_Type_POS"] : List String),
          (∃ tail, c = "Transaction_Type" ++ "_" ++ tail) →
          ¬ catHit [("Transaction_Type", Scalar.str "Online")]
            ["Transaction_Type_Online", "Transaction_Type_POS"]
            [("Transaction_Type", "Transaction_Type")] c →
          (dictHas [("Transaction_Type", Scalar.str "Online")] c = true →
            dictHas [("Transaction_Type", "Transaction_Type")] c = true) →
          df.colVal c = .num 0 :=
  ⟨by decide, by decide, by decide,
    claim_C3_amended [("Transaction_Type", .str "Online")]
      ["Transaction_Type_Online", "Transaction_Type_POS"]
      [("Transaction_Type", "Transaction_Type")] "Transaction_Type"
      "Transaction_Type" (by decide) (by decide) (by decide)⟩

lemma pyFind_some_of_has (entries : List (String × PyObject)) (k : String)
    (h : dictHas entries k = true) : ∃ v, pyFind entries k = some v := by
  unfold pyFind
  rcases hf : entries.find? (fun p => p.1 == k) with _ | p
  · rw [List.find?_eq_none] at hf
    rw [dictHas, List.any_eq_true] at h
    rcases h with ⟨x, hx, hb⟩
    exact absurd hb (hf x hx)
  · exact ⟨p.2, by rw [hf]; rfl⟩

lemma pyFind_none_of_not_has (entries : List (String × PyObject)) (k : String)
    (h : dictHas entries k = false) : pyFind entries k = none := by
  unfold pyFind
  rcases hf : entries.find? (fun p => p.1 == k) with _ | p
  · rw [hf]; rfl
  · exfalso
    have hp := List.find?_some hf
    have hm := List.mem_of_find?_eq_some hf
    rw [dictHas, List.any_eq_false] at h
    exact h p hm hp

/-- A deserialized artifact with a recognizable model slot: a dict holding
the key `model`. -/
def hasModelSlot : PyObject → Bool
  | .dict es => dictHas es "model"
  | _ => false

/-- Claim C7: the loader returns, for a dict artifact with a `model` slot,
that model together with the three metadata lists, each defaulting to the
empty list when absent; any other deserialized value is returned whole as
the raw model with all three metadata lists empty; and a deserialization
failure is re-raised as a load error wrapping the cause. -/
theorem claim_C7_loader :
    (∀ entries, dictHas entries "model" = true →
      ∃ m fn cf tc,
        load_model_with_metadata (.ok (.dict entries)) = .ok (m, fn, cf, tc) ∧
        pyFind entries "model" = some m ∧
        (dictHas entries "feature_names" = false → fn = .strlist []) ∧
        (∀ v, pyFind entries "feature_names" = some v → fn = v) ∧
        (dictHas entries "categorical_features" = false → cf = .strlist []) ∧
        (∀ v, pyFind entries "categorical_features" = some v → cf = v) ∧
        (dictHas entries "training_columns" = false → tc = .strlist []) ∧
        (∀ v, pyFind entries "training_columns" = some v → tc = v)) ∧
    (∀ md, hasModelSlot md = false →
      load_model_with_metadata (.ok md) =
        .ok (md, .strlist [], .strlist [], .strlist [])) ∧
    (∀ e, load_model_with_metadata (.error e) =
      .error (.valueError (.errorLoadingModel e))) := by
  refine ⟨?_, ?_, ?_⟩
  · intro entries h
    refine ⟨pyGetD entries "model" .noneV,
      pyGetD entries "feature_names" (.strlist []),
      pyGetD entries "categorical_features" (.strlist []),
      pyGetD entries "training_columns" (.strlist []),
      ?_, ?_, ?_, ?_, ?_, ?_, ?_, ?_⟩
    · unfold load_model_with_metadata
      dsimp only
      rw [if_pos h]
    · obtain ⟨v, hv⟩ := pyFind_some_of_has entries "model" h
      rw [hv, pyGetD, hv]
      rfl
    · intro hno
      rw [pyGetD, pyFind_none_of_not_has entries "feature_names" hno]
      rfl
    · intro v hv
      rw [pyGetD, hv]
      rfl
    · intro hno
      rw [pyGetD, pyFind_none_of_not_has entries "categorical_features" hno]
      rfl
    · intro v hv
      rw [pyGetD, hv]
      rfl
    · intro hno
      rw [pyGetD, pyFind_none_of_not_has entries "training_columns" hno]
      rfl
    · intro v hv
      rw [pyGetD, hv]
      rfl
  · intro md h
    cases md <;> simp_all [load_model_with_metadata, hasModelSlot]
  · intro e
    rfl

/-- Witness for C7: a dict artifact carrying a model and a feature-name
list but no categorical or training metadata; a bare (non-dict) artifact;
and a failing deserialization. -/
theorem claim_C7_witness :
    dictHas [("model", PyObject.noneV),
        ("feature_names", PyObject.strlist ["Risk_Score"])] "model" = true ∧
      (∃ m fn cf tc,
        load_model_with_metadata (.ok (.dict [("model", PyObject.noneV),
            ("feature_names", PyObject.strlist ["Risk_Score"])])) =
          .ok (m, fn, cf, tc) ∧
        pyFind [("model", PyObject.noneV),
            ("feature_names", PyObject.strlist ["Risk_Score"])] "model" = some m ∧
        (dictHas [("model", PyObject.noneV),
            ("feature_names", PyObject.strlist ["Risk_Score"])] "feature_names" =
              false → fn = .strlist []) ∧
        (∀ v, pyFind [("model", PyObject.noneV),
            ("feature_names", PyObject.strlist ["Risk_Score"])] "feature_names" =
              some v → fn = v) ∧
        (dictHas [("model", PyObject.noneV),
            ("feature_names", PyObject.strlist ["Risk_Score"])]
              "categorical_features" = false → cf = .strlist []) ∧
        (∀ v, pyFind [("model", PyObject.noneV),
            ("feature_names", PyObject.strlist ["Risk_Score"])]
              "categorical_features" = some v → cf = v) ∧
        (dictHas [("model", PyObject.noneV),
            ("feature_names", PyObject.strlist ["Risk_Score"])]
              "training_columns" = false → tc = .strlist []) ∧
        (∀ v, pyFind [("model", PyObject.noneV),
            ("feature_names", PyObject.strlist ["Risk_Score"])]
              "training_columns" = some v → tc = v)) ∧
      hasModelSlot (.strlist ["x"]) = false ∧
      load_model_with_metadata (.ok (.strlist ["x"])) =
        .ok (.strlist ["x"], .strlist [], .strlist [], .strlist []) ∧
      load_model_with_metadata (.error "file not found") =
        .error (.valueError (.errorLoadingModel "file not found")) :=
  ⟨by decide,
    claim_C7_loader.1 [("model", PyObject.noneV),
      ("feature_names", PyObject.strlist ["Risk_Score"])] (by decide),
    by decide,
    claim_C7_loader.2.1 (.strlist ["x"]) (by decide),
    claim_C7_loader.2.2 "file not found"⟩

/-- Claim C2: a failure of the underlying `predict` or `predict_proba` call
is re-raised by `predict_fraud` as a prediction error wrapping the cause;
and, as in the reference run, a model trained on the raw pre-encoding
columns fed the one-hot expected-feature vector built from the hardcoded
transaction fails with a "columns are missing" error naming exactly the
five raw categorical keys of the mapping. -/
theorem claim_C2_prediction_error_wrapped :
    (∀ (m : SkModel) (df : DataFrame) (e : SkErr),
        sklearn_predict m df = .error e →
        predict_fraud m df = .error (.valueError (.predictionError e))) ∧
    (∀ (m : SkModel) (df : DataFrame) (r : List Int) (e : SkErr),
        sklearn_predict m df = .ok r →
        sklearn_predict_proba m df = .error e →
        predict_fraud m df = .error (.valueError (.predictionError e))) ∧
    (∀ (pf : List Scalar → Except SkErr (List Int))
        (pb : List Scalar → Except SkErr (List (List Rat))) (ip : Bool)
        (df : DataFrame) (w : List PrepWarning),
        prepare_input_data transaction_data referenceExpectedFeatures
          (some CATEGORICAL_MAPPING) = .ok (df, w) →
        predict_fraud ⟨some referenceTrainingColumns, ip, pf, pb⟩ df =
          .error (.valueError (.predictionError (.columnsMissing
            ["Transaction_Type", "Device_Type", "Location",
             "Merchant_Category", "Authentication_Method"])))) := by
  refine ⟨?_, ?_, ?_⟩
  · intro m df e h
    unfold predict_fraud
    rw [h]
  · intro m df r e h1 h2
    unfold predict_fraud
    rw [h1, h2]
  · intro pf pb ip df w h
    rw [prepare_input_data_eq transaction_data referenceExpectedFeatures
      CATEGORICAL_MAPPING (by decide)] at h
    have hdf : df = ⟨referenceExpectedFeatures,
        referenceExpectedFeatures.map (prepVal transaction_data
          referenceExpectedFeatures CATEGORICAL_MAPPING)⟩ := by
      injection h with h1
      injection h1 with h2 h3
      exact h2.symm
    subst hdf
    have hcheck : sklearn_check_columns
        ⟨some referenceTrainingColumns, ip, pf, pb⟩
        ⟨referenceExpectedFeatures,
          referenceExpectedFeatures.map (prepVal transaction_data
            referenceExpectedFeatures CATEGORICAL_MAPPING)⟩ =
        .error (.columnsMissing
          ["Transaction_Type", "Device_Type", "Location",
           "Merchant_Category", "Authentication_Method"]) := by
      unfold sklearn_check_columns
      have hmiss : referenceTrainingColumns.filter
          (fun c => !(referenceExpectedFeatures.contains c)) =
          ["Transaction_Type", "Device_Type", "Location",
           "Merchant_Category", "Authentication_Method"] := by decide
      dsimp only
      rw [hmiss]
      rfl
    unfold predict_fraud sklearn_predict
    rw [hcheck]

/-- Witness for C2: a one-column model fed an empty table (its column is
missing); a model whose probability computation alone fails; and the
reference-run scenario itself. -/
theorem claim_C2_witness :
    sklearn_predict ⟨some ["A"], false, fun _ => .ok [], fun _ => .ok []⟩
        ⟨[], []⟩ = .error (.columnsMissing ["A"]) ∧
      predict_fraud ⟨some ["A"], false, fun _ => .ok [], fun _ => .ok []⟩
        ⟨[], []⟩ = .error (.valueError (.predictionError
          (.columnsMissing ["A"]))) ∧
      sklearn_predict ⟨none, false, fun _ => .ok [0],
          fun _ => .error (.raised "boom")⟩ ⟨[], []⟩ = .ok [0] ∧
      sklearn_predict_proba ⟨none, false, fun _ => .ok [0],
          fun _ => .error (.raised "boom")⟩ ⟨[], []⟩ =
        .error (.raised "boom") ∧
      predict_fraud ⟨none, false, fun _ => .ok [0],
          fun _ => .error (.raised "boom")⟩ ⟨[], []⟩ =
        .error (.valueError (.predictionError (.raised "boom"))) ∧
      predict_fraud ⟨some referenceTrainingColumns, false,
          fun _ => .ok [], fun _ => .ok []⟩
        ⟨referenceExpectedFeatures,
          referenceExpectedFeatures.map (prepVal transaction_data
            referenceExpectedFeatures CATEGORICAL_MAPPING)⟩ =
        .error (.valueError (.predictionError (.columnsMissing
          ["Transaction_Type", "Device_Type", "Location",
           "Merchant_Category", "Authentication_Method"]))) :=
  ⟨rfl,
    claim_C2_prediction_error_wrapped.1
      ⟨some ["A"], false, fun _ => .ok [], fun _ => .ok []⟩ ⟨[], []⟩
      (.columnsMissing ["A"]) rfl,
    rfl, rfl,
    claim_C2_prediction_error_wrapped.2.1
      ⟨none, false, fun _ => .ok [0], fun _ => .error (.raised "boom")⟩
      ⟨[], []⟩ [0] (.raised "boom") rfl rfl,
    claim_C2_prediction_error_wrapped.2.2 (fun _ => .ok []) (fun _ => .ok [])
      false _ _ (prepare_input_data_eq transaction_data
        referenceExpectedFeatures CATEGORICAL_MAPPING (by decide))⟩

lemma resolveFeatureNames_fst (a b : PyObject) :
    (resolveFeatureNames a b).1 = [] ∨
      (resolveFeatureNames a b).1 = [.warnNoFeatureNames] ∨
      (resolveFeatureNames a b).1 = [.warnNoFeatureNames, .pipelineNote] := by
  unfold resolveFeatureNames
  by_cases ht : b.truthy
  · simp [ht]
  · cases a with
    | model m =>
      cases hm : m.feature_names_in with
      | some xs => simp [ht, hm]
      | none => by_cases hp : m.is_pipeline <;> simp [ht, hm, hp]
    | strlist xs => simp [ht]
    | dict es => simp [ht]
    | noneV => simp [ht]

lemma classifyTransaction_cases (p : Rat) :
    classifyTransaction p = .alertFraud ∨ classifyTransaction p = .legitimate := by
  unfold classifyTransaction
  by_cases h : p > threshold <;> simp [h]

lemma classifyTransaction_alert_iff (p : Rat) :
    classifyTransaction p = .alertFraud ↔ threshold < p := by
  unfold classifyTransaction
  by_cases h : p > threshold <;> simp [h]

lemma main_cases (loaded : Except String PyObject) :
    ((Script.main loaded).exitCode = 1 ∧
      (∃ e, (Script.main loaded).stderr = [e]) ∧
      (∀ q, OutLine.probabilityLine q ∉ (Script.main loaded).stdout) ∧
      OutLine.alertFraud ∉ (Script.main loaded).stdout ∧
      OutLine.legitimate ∉ (Script.main loaded).stdout ∧
      (∀ n, OutLine.predictionLine n ∉ (Script.main loaded).stdout)) ∨
    (∃ base p pr, (Script.main loaded).exitCode = 0 ∧
      (Script.main loaded).stderr = [] ∧
      (Script.main loaded).stdout =
        base ++ [.predictionResultsHeader, .predictionLine p,
                 .probabilityLine pr, classifyTransaction pr] ∧
      (∀ q, OutLine.probabilityLine q ∉ base) ∧
      OutLine.alertFraud ∉ base ∧ OutLine.legitimate ∉ base) := by
  unfold Script.main
  cases hl : load_model_with_metadata loaded with
  | error e =>
    dsimp only
    left
    exact ⟨rfl, ⟨e, rfl⟩, by simp, by simp, by simp, by simp⟩
  | ok tup =>
    obtain ⟨model_o, fn0, cats, cols⟩ := tup
    dsimp only
    by_cases ht : (resolveFeatureNames model_o fn0).2.truthy
    · rw [if_pos ht]
      cases haf : asFeatureList (resolveFeatureNames model_o fn0).2 with
      | error e =>
        dsimp only
        left
        refine ⟨rfl, ⟨e, rfl⟩, ?_, ?_, ?_, ?_⟩ <;>
          rcases resolveFeatureNames_fst model_o fn0 with hr | hr | hr <;>
            rw [hr] <;> simp
      | ok feats =>
        dsimp only
        cases hprep : prepare_input_data transaction_data feats
            (some CATEGORICAL_MAPPING) with
        | error e =>
          dsimp only
          left
          refine ⟨rfl, ⟨e, rfl⟩, ?_, ?_, ?_, ?_⟩ <;>
            rcases resolveFeatureNames_fst model_o fn0 with hr | hr | hr <;>
              rw [hr] <;> simp
        | ok dfw =>
          obtain ⟨df, ws⟩ := dfw
          dsimp only
          cases hpred : model_predict_obj model_o df with
          | error e =>
            dsimp only
            left
            refine ⟨rfl, ⟨e, rfl⟩, ?_, ?_, ?_, ?_⟩ <;>
              rcases resolveFeatureNames_fst model_o fn0 with hr | hr | hr <;>
                rw [hr] <;> simp
          | ok ppr =>
            obtain ⟨p, pr⟩ := ppr
            dsimp only
            right
            refine ⟨OutLine.modelLoaded :: (resolveFeatureNames model_o fn0).1 ++
              [.expectedFeatures (resolveFeatureNames model_o fn0).2.render] ++
              ws.map OutLine.prepWarning, p, pr, rfl, rfl, ?_, ?_, ?_, ?_⟩
            · simp [List.append_assoc]
            · rcases resolveFeatureNames_fst model_o fn0 with hr | hr | hr <;>
                rw [hr] <;> simp
            · rcases resolveFeatureNames_fst model_o fn0 with hr | hr | hr <;>
                rw [hr] <;> simp
            · rcases resolveFeatureNames_fst model_o fn0 with hr | hr | hr <;>
                rw [hr] <;> simp
    · rw [if_neg ht]
      left
      refine ⟨rfl, ⟨.valueError .couldNotDetermineFeatures, rfl⟩, ?_, ?_, ?_, ?_⟩ <;>
        rcases resolveFeatureNames_fst model_o fn0 with hr | hr | hr <;>
          rw [hr] <;> simp

/-- Claim C8: every run of `main` either fails — the error goes to stderr
and the process exits with code 1 — or succeeds, exiting with code 0 after
printing the prediction, the probability, and the alert classification. -/
theorem claim_C8_exit_codes (loaded : Except String PyObject) :
    ((Script.main loaded).exitCode = 1 ∧
      ∃ e, (Script.main loaded).stderr = [e]) ∨
    ((Script.main loaded).exitCode = 0 ∧ (Script.main loaded).stderr = [] ∧
      ∃ p pr, OutLine.predictionLine p ∈ (Script.main loaded).stdout ∧
        OutLine.probabilityLine pr ∈ (Script.main loaded).stdout ∧
        (OutLine.alertFraud ∈ (Script.main loaded).stdout ∨
          OutLine.legitimate ∈ (Script.main loaded).stdout)) := by
  rcases main_cases loaded with ⟨h1, h2, -, -, -, -⟩ |
    ⟨base, p, pr, h0, hs, hst, -, -, -⟩
  · exact Or.inl ⟨h1, h2⟩
  · right
    refine ⟨h0, hs, p, pr, ?_, ?_, ?_⟩
    · rw [hst]; simp
    · rw [hst]; simp
    · rcases classifyTransaction_cases pr with h | h
      · left
        rw [hst, h]
        simp
      · right
        rw [hst, h]
        simp

/-- Claim C10: the 0.5 alert threshold of `main` is strict — the fraud
alert is printed exactly when the returned probability is strictly greater
than the threshold, and at probability exactly 0.5 the legitimate
classification is printed and the alert is not. -/
theorem claim_C10_threshold_strict (loaded : Except String PyObject) (p : Rat)
    (hp : OutLine.probabilityLine p ∈ (Script.main loaded).stdout) :
    (OutLine.alertFraud ∈ (Script.main loaded).stdout ↔ threshold < p) ∧
    (p = threshold → OutLine.legitimate ∈ (Script.main loaded).stdout ∧
      OutLine.alertFraud ∉ (Script.main loaded).stdout) := by
  rcases main_cases loaded with ⟨-, -, hq, -, -, -⟩ |
    ⟨base, p2, pr, -, -, hst, hq, ha, hleg⟩
  · exact absurd hp (hq p)
  · have hppr : p = pr := by
      rw [hst] at hp
      rcases List.mem_append.mp hp with h | h
      · exact absurd h (hq p)
      · rcases classifyTransaction_cases pr with hcl | hcl <;>
          rw [hcl] at h <;> simp at h <;> exact h
    subst hppr
    constructor
    · constructor
      · intro h
        rw [hst] at h
        rcases List.mem_append.mp h with h2 | h2
        · exact absurd h2 ha
        · rcases classifyTransaction_cases p with hcl | hcl
          · exact (classifyTransaction_alert_iff p).mp hcl
          · rw [hcl] at h2
            simp at h2
      · intro h
        rw [hst, (classifyTransaction_alert_iff p).mpr h]
        simp
    · intro he
      have hcl : classifyTransaction p = .legitimate := by
        unfold classifyTransaction
        rw [he]
        simp
      constructor
      · rw [hst, hcl]
        simp
      · rw [hst, hcl]
        intro h
        rcases List.mem_append.mp h with h2 | h2
        · exact ha h2
        · simp at h2

/-- Witness for C10: an artifact whose model returns probability exactly
0.5 on the hardcoded transaction; the run prints the legitimate message and
no alert. -/
theorem claim_C10_witness :
    OutLine.probabilityLine threshold ∈
      (Script.main (.ok (.dict
        [("model", .model ⟨none, false, fun _ => .ok [0],
            fun _ => .ok [[threshold, threshold]]⟩),
         ("feature_names", .strlist ["Transaction_Amount"])]))).stdout ∧
    OutLine.legitimate ∈
      (Script.main (.ok (.dict
        [("model", .model ⟨none, false, fun _ => .ok [0],
            fun _ => .ok [[threshold, threshold]]⟩),
         ("feature_names", .strlist ["Transaction_Amount"])]))).stdout ∧
    OutLine.alertFraud ∉
      (Script.main (.ok (.dict
        [("model", .model ⟨none, false, fun _ => .ok [0],
            fun _ => .ok [[threshold, threshold]]⟩),
         ("feature_names", .strlist ["Transaction_Amount"])]))).stdout :=
  ⟨by decide,
    (claim_C10_threshold_strict (.ok (.dict
      [("model", .model ⟨none, false, fun _ => .ok [0],
          fun _ => .ok [[threshold, threshold]]⟩),
       ("feature_names", .strlist ["Transaction_Amount"])]))
      threshold (by decide)).2 rfl⟩
